import Mathlib

/-!
Shallow embedding of the try_catch header library (include/tc/try_catch.hpp):
a leveled logging dispatcher over a process-wide state (minimum level plus an
optional sink), and the conditional try/catch macro layer in its two modes
(exceptions enabled: native first-match handler semantics; exceptions
disabled: always-taken try branch, never-taken handler branches, and
TC_THROW/TC_RETHROW routed to a fatal abort hook).
-/

namespace TC

/-- The log_level enumeration from try_catch.hpp. -/
inductive log_level where
  | trace
  | debug
  | info
  | warn
  | error
  | off
  deriving DecidableEq, Repr

/-- Underlying integer of each enumerator, as declared in the source
(trace = 0, debug = 1, info = 2, warn = 3, error = 4, off = 5). -/
def log_level.toInt : log_level → Int
  | .trace => 0
  | .debug => 1
  | .info => 2
  | .warn => 3
  | .error => 4
  | .off => 5

/-- The static_cast from the stored int back to log_level, as performed by
get_log_level. Only values 0..5 are ever stored. -/
def log_level.ofInt (i : Int) : log_level :=
  if i = 0 then .trace
  else if i = 1 then .debug
  else if i = 2 then .info
  else if i = 3 then .warn
  else if i = 4 then .error
  else .off

/-- One invocation of a sink: the arguments vlog_dispatch forwards
(level, file, line, function, format string, variadic arguments). -/
structure SinkCall where
  lvl : log_level
  file : String
  line : Int
  func : String
  fmt : String
  args : List String
  deriving DecidableEq, Repr

/-- The process-wide logging state: the atomic int holding the minimum
level and the atomic sink pointer (null modelled as none). The sink
pointer type is kept abstract as S. -/
structure LogState (S : Type) where
  level : Int
  sink : Option S
  deriving DecidableEq, Repr

/-- set_log_level: stores the integer value of the given level. -/
def set_log_level {S : Type} (lvl : log_level) (st : LogState S) : LogState S :=
  { st with level := lvl.toInt }

/-- get_log_level: loads the stored int and casts it back to log_level. -/
def get_log_level {S : Type} (st : LogState S) : log_level :=
  log_level.ofInt st.level

/-- set_log_sink: stores the given sink pointer. -/
def set_log_sink {S : Type} (s : Option S) (st : LogState S) : LogState S :=
  { st with sink := s }

/-- get_log_sink: loads the current sink pointer. -/
def get_log_sink {S : Type} (st : LogState S) : Option S :=
  st.sink

/-- vlog_dispatch: drop the event when its level is below the configured
minimum, otherwise load the sink and, when it is non-null, invoke it once
with the event. The result is the list of sink invocations performed. -/
def vlog_dispatch {S : Type} (st : LogState S) (lvl : log_level) (file : String)
    (line : Int) (func : String) (fmt : String) (args : List String) :
    List (S × SinkCall) :=
  if lvl.toInt < st.level then []
  else
    match st.sink with
    | none => []
    | some s => [(s, ⟨lvl, file, line, func, fmt, args⟩)]

/-- logf: packs the variadic arguments and forwards to vlog_dispatch. It
reads the state but never writes it, so it returns the state unchanged
together with the sink invocations performed. -/
def logf {S : Type} (st : LogState S) (lvl : log_level) (file : String)
    (line : Int) (func : String) (fmt : String) (args : List String) :
    LogState S × List (S × SinkCall) :=
  (st, vlog_dispatch st lvl file line func fmt args)

end TC

namespace TC

/-- Exceptions thrown through the layer: std::runtime_error values, other
std::exception-derived values, and non-std values (such as a thrown int). -/
inductive Exn where
  | runtime_error (msg : String)
  | other_std (msg : String)
  | non_std (v : Int)
  deriving DecidableEq, Repr

/-- Whether a thrown value matches a catch clause of type
const std::runtime_error reference. -/
def Exn.is_runtime_error : Exn → Bool
  | .runtime_error _ => true
  | _ => false

/-- Whether a thrown value matches a catch clause of type
const std::exception reference (runtime_error derives from it). -/
def Exn.is_std_exception : Exn → Bool
  | .non_std _ => false
  | _ => true

/-- A handler clause attached to a TC_TRY block in exceptions-enabled mode:
TC_CATCH with a concrete type, or TC_CATCH_ALL. The body transforms the
surrounding state. -/
inductive Handler (σ : Type) where
  | catch_runtime_error (body : σ → σ)
  | catch_std_exception (body : σ → σ)
  | catch_all (body : σ → σ)

/-- Whether a handler clause matches a thrown value, by type compatibility. -/
def Handler.matchesExn {σ : Type} : Handler σ → Exn → Bool
  | .catch_runtime_error _, e => e.is_runtime_error
  | .catch_std_exception _, e => e.is_std_exception
  | .catch_all _, _ => true

/-- The body of a handler clause. -/
def Handler.body {σ : Type} : Handler σ → (σ → σ)
  | .catch_runtime_error b => b
  | .catch_std_exception b => b
  | .catch_all b => b

/-- Native catch dispatch: handlers are tried in declaration order and the
first one whose type matches runs; with no match the exception propagates. -/
def dispatch_handlers {σ : Type} : List (Handler σ) → Exn → σ → Except Exn σ
  | [], e, _ => Except.error e
  | h :: hs, e, s => if h.matchesExn e then Except.ok (h.body s) else dispatch_handlers hs e s

/-- A TC_TRY block in exceptions-enabled mode: run the try body (which
yields the state reached and, possibly, a thrown value escaping it), then
dispatch any thrown value to the attached handlers in order. -/
def run_try_enabled {σ : Type} (tryBody : σ → σ × Option Exn)
    (hs : List (Handler σ)) (s : σ) : Except Exn σ :=
  match tryBody s with
  | (s2, none) => Except.ok s2
  | (s2, some e) => dispatch_handlers hs e s2

/-- The else-if(false) chain that TC_CATCH clauses expand to when
exceptions are disabled: every branch condition is the literal false. -/
def dead_branches {σ : Type} : List (σ → σ) → σ → σ
  | [], s => s
  | h :: hs, s => if false then h s else dead_branches hs s

/-- A TC_TRY block in exceptions-disabled mode: TC_TRY expands to
if(true) and each attached handler to else if(false). -/
def run_try_disabled {σ : Type} (tryBody : σ → σ) (hs : List (σ → σ)) (s : σ) : σ :=
  if true then tryBody s else dead_branches hs s

/-- TC_GUARD in exceptions-enabled mode: ok starts true, the expression is
evaluated inside TC_TRY, and the TC_CATCH(const std::exception reference)
and TC_CATCH_ALL clauses each set ok to false; the lambda returns ok. -/
def tc_guard_enabled {α : Type} (expr : Except Exn α) : Except Exn Bool :=
  run_try_enabled
    (fun ok =>
      match expr with
      | Except.ok _ => (ok, none)
      | Except.error e => (ok, some e))
    [Handler.catch_std_exception (fun _ => false), Handler.catch_all (fun _ => false)]
    true

/-- TC_GUARD in exceptions-disabled mode: the same expansion, but with the
disabled-mode TC_TRY / TC_CATCH branches, over an expression that cannot
throw and whose value is discarded. -/
def tc_guard_disabled {α : Type} (expr : Unit → α) : Bool :=
  run_try_disabled
    (fun ok => let _ := expr (); ok)
    [fun _ => false, fun _ => false]
    true

/-- The may_throw helper of the example program, exceptions-enabled build:
throws std::runtime_error for negative input, else returns twice the input. -/
def may_throw (x : Int) : Except Exn Int :=
  if x < 0 then Except.error (Exn.runtime_error "x must be non-negative")
  else Except.ok (x * 2)

/-- The may_throw helper of the example program, exceptions-disabled build:
signals failure via the return code -1 for negative input. -/
def may_throw_noexc (x : Int) : Int :=
  if x < 0 then -1 else x * 2

end TC

namespace TC

/-- Outcome of the fatal abort path: the bytes written to standard error
and the fact that the process terminated (abort never returns). -/
structure AbortOutcome where
  stderr_out : String
  terminated : Bool
  deriving DecidableEq, Repr

/-- Null-pointer fallback used by default_abort_noexcept for file and
function names. -/
def or_unknown : Option String → String
  | none => "(unknown)"
  | some s => s

/-- Null-pointer fallback used by default_abort_noexcept for the message. -/
def or_none_msg : Option String → String
  | none => "(none)"
  | some s => s

/-- default_abort_noexcept: prints the diagnostic line to standard error
and calls abort, terminating the process. -/
def default_abort_noexcept (file : Option String) (line : Int)
    (func : Option String) (msg : Option String) : AbortOutcome :=
  { stderr_out :=
      "[tc] fatal: exception thrown but exceptions are disabled\n  at "
        ++ or_unknown file ++ ":" ++ toString line ++ " in " ++ or_unknown func
        ++ "\n  msg: " ++ or_none_msg msg ++ "\n"
    terminated := true }

/-- TC_ABORT: invokes default_abort_noexcept with the current source
location (never null) and the given message. -/
def TC_ABORT (file : String) (line : Int) (func : String) (msg : String) : AbortOutcome :=
  default_abort_noexcept (some file) line (some func) (some msg)

/-- TC_THROW in exceptions-disabled mode: expands to TC_ABORT with a fixed
message. -/
def TC_THROW_noexc (file : String) (line : Int) (func : String) : AbortOutcome :=
  TC_ABORT file line func "TC_THROW called with exceptions disabled"

/-- TC_RETHROW in exceptions-disabled mode: expands to TC_ABORT with a
fixed message. -/
def TC_RETHROW_noexc (file : String) (line : Int) (func : String) : AbortOutcome :=
  TC_ABORT file line func "TC_RETHROW called with exceptions disabled"

/-- A string contains another as a contiguous substring. -/
def contains_str (s sub : String) : Prop :=
  ∃ a b, s = a ++ sub ++ b

end TC

namespace TC

/-- C1: with an active (non-null) sink, a log call at event level E under
configured minimum level L is delivered to that sink exactly once when the
integer of E is at least the integer of L, and when E is below L the call
performs no sink invocation. Quantified over all levels, the five named
ones included. -/
theorem tc_c1_filter_iff {S : Type} (s : S) (L E : log_level) (file func fmt : String)
    (line : Int) (args : List String) :
    (L.toInt ≤ E.toInt →
      vlog_dispatch { level := L.toInt, sink := some s } E file line func fmt args
        = [(s, ⟨E, file, line, func, fmt, args⟩)]) ∧
    (E.toInt < L.toInt →
      vlog_dispatch { level := L.toInt, sink := some s } E file line func fmt args = []) := by
  refine ⟨fun h => ?_, fun h => ?_⟩
  · unfold vlog_dispatch
    rw [if_neg (Int.not_lt.mpr h)]
  · unfold vlog_dispatch
    rw [if_pos h]

/-- Witness for C1: with minimum info, a warn event is delivered and an
info event under minimum warn is dropped. -/
theorem tc_c1_filter_iff_witness :
    vlog_dispatch { level := log_level.info.toInt, sink := some 0 } log_level.warn
        "f.cpp" 10 "g" "m" [] = [(0, ⟨log_level.warn, "f.cpp", 10, "g", "m", []⟩)] ∧
    vlog_dispatch { level := log_level.warn.toInt, sink := some 0 } log_level.info
        "f.cpp" 10 "g" "m" [] = [] :=
  ⟨(tc_c1_filter_iff 0 log_level.info log_level.warn "f.cpp" "g" "m" 10 []).1 (by decide),
   (tc_c1_filter_iff 0 log_level.warn log_level.info "f.cpp" "g" "m" 10 []).2 (by decide)⟩

/-- C6: when the sink is unset (null), a log call at any level and any
arguments performs no sink invocation. -/
theorem tc_c6_null_sink_noop {S : Type} (lvlConf : Int) (E : log_level)
    (file func fmt : String) (line : Int) (args : List String) :
    vlog_dispatch ({ level := lvlConf, sink := none } : LogState S) E file line func fmt args
      = [] := by
  unfold vlog_dispatch
  split
  · rfl
  · rfl

/-- C7: get_level after set_level L returns L, and get_sink after
set_sink s returns s, for every level, sink and starting state. -/
theorem tc_c7_set_get_roundtrip {S : Type} (L : log_level) (s : Option S) (st : LogState S) :
    get_log_level (set_log_level L st) = L ∧ get_log_sink (set_log_sink s st) = s := by
  refine ⟨?_, rfl⟩
  cases L <;> rfl

/-- C9: set_level leaves the sink unchanged, set_sink leaves the level
unchanged, and a log call (filtered or delivered) leaves the whole state
unchanged. -/
theorem tc_c9_frame {S : Type} (L : log_level) (s : Option S) (st : LogState S)
    (E : log_level) (file func fmt : String) (line : Int) (args : List String) :
    (set_log_level L st).sink = st.sink ∧
    (set_log_sink s st).level = st.level ∧
    (logf st E file line func fmt args).1 = st :=
  ⟨rfl, rfl, rfl⟩

/-- C10: with the configured minimum set to off, an event at any of the
five named levels (every level other than off) is never delivered,
whatever the sink; off sits strictly above each named level. -/
theorem tc_c10_off_filters_all {S : Type} (sk : Option S) (E : log_level)
    (file func fmt : String) (line : Int) (args : List String) (h : E ≠ log_level.off) :
    E.toInt < log_level.off.toInt ∧
    vlog_dispatch { level := log_level.off.toInt, sink := sk } E file line func fmt args
      = [] := by
  have hE : E.toInt < log_level.off.toInt := by
    cases E
    · decide
    · decide
    · decide
    · decide
    · decide
    · exact absurd rfl h
  refine ⟨hE, ?_⟩
  unfold vlog_dispatch
  rw [if_pos hE]

/-- Witness for C10: a trace event under minimum off is dropped. -/
theorem tc_c10_off_filters_all_witness :
    log_level.trace.toInt < log_level.off.toInt ∧
    vlog_dispatch { level := log_level.off.toInt, sink := some 0 } log_level.trace
      "f.cpp" 10 "g" "m" [] = [] :=
  tc_c10_off_filters_all (some 0) log_level.trace "f.cpp" "g" "m" 10 [] (by decide)

end TC

namespace TC

/-- C2: in exceptions-disabled mode the guard helper returns true for
every wrapped operation whatever its internal outcome; in particular it
returns true around may_throw_noexc applied to -1, even though that call
signals failure internally by returning -1. -/
theorem tc_c2_guard_disabled_always_true :
    (∀ (α : Type) (expr : Unit → α), tc_guard_disabled expr = true) ∧
    tc_guard_disabled (fun _ => may_throw_noexc (-1)) = true ∧
    may_throw_noexc (-1) = -1 := by
  refine ⟨fun α expr => rfl, rfl, by decide⟩

/-- C4: in exceptions-disabled mode the try body always runs and the
result never depends on any attached handler body: the block equals the
try body alone for every list of handlers. Instantiated on the counter
pair of the TryRunsCatchSkipped test, the try flag is set and the catch
flag stays 0. -/
theorem tc_c4_disabled_try_runs_catch_skipped :
    (∀ (σ : Type) (tryBody : σ → σ) (hs : List (σ → σ)) (s : σ),
      run_try_disabled tryBody hs s = tryBody s) ∧
    run_try_disabled (fun p => (1, p.2))
      [fun p => (p.1, 1), fun p => (p.1, 1)] ((0, 0) : Int × Int) = (1, 0) := by
  exact ⟨fun σ tryBody hs s => rfl, rfl⟩

/-- C5: in exceptions-enabled mode the guard helper returns true exactly
when the wrapped operation completes without throwing and false exactly
when it throws anything (standard or not); for may_throw it returns true
at input 1 and false at input -1. -/
theorem tc_c5_guard_enabled_iff (expr : Except Exn Int) :
    (tc_guard_enabled expr = Except.ok true ↔ ∃ v, expr = Except.ok v) ∧
    (tc_guard_enabled expr = Except.ok false ↔ ∃ e, expr = Except.error e) ∧
    tc_guard_enabled (may_throw 1) = Except.ok true ∧
    tc_guard_enabled (may_throw (-1)) = Except.ok false := by
  refine ⟨?_, ?_, rfl, rfl⟩
  · cases expr with
    | ok v =>
      simp [tc_guard_enabled, run_try_enabled]
    | error e =>
      cases e <;>
        simp [tc_guard_enabled, run_try_enabled, dispatch_handlers, Handler.matchesExn,
          Handler.body, Exn.is_std_exception]
  · cases expr with
    | ok v =>
      simp [tc_guard_enabled, run_try_enabled]
    | error e =>
      cases e <;>
        simp [tc_guard_enabled, run_try_enabled, dispatch_handlers, Handler.matchesExn,
          Handler.body, Exn.is_std_exception]

/-- C8: in exceptions-enabled mode, with a runtime_error-specific handler
declared before a std::exception handler and a catch-all, a thrown
runtime_error runs the specific handler on the state and neither of the
others; on incrementing counters the specific count is 1 and the other
two are 0. -/
theorem tc_c8_specific_before_general {σ : Type} (msg : String) (b1 b2 b3 : σ → σ) (s : σ) :
    run_try_enabled (fun st => (st, some (Exn.runtime_error msg)))
      [Handler.catch_runtime_error b1, Handler.catch_std_exception b2, Handler.catch_all b3] s
      = Except.ok (b1 s) ∧
    run_try_enabled (fun st => (st, some (Exn.runtime_error "rte")))
      [Handler.catch_runtime_error (fun p => (p.1 + 1, p.2.1, p.2.2)),
       Handler.catch_std_exception (fun p => (p.1, p.2.1 + 1, p.2.2)),
       Handler.catch_all (fun p => (p.1, p.2.1, p.2.2 + 1))]
      ((0, 0, 0) : Nat × Nat × Nat)
      = Except.ok (1, 0, 0) := by
  exact ⟨rfl, rfl⟩

end TC

namespace TC

/-- Associativity of string concatenation, used to locate substrings
inside the diagnostic line of the abort hook. -/
theorem str_append_assoc (a b c : String) : a ++ b ++ c = a ++ (b ++ c) := by
  apply String.ext
  simp

/-- C3: in exceptions-disabled mode TC_THROW and TC_RETHROW both expand
to invocations of the fatal abort hook; the default hook writes to
standard error a diagnostic containing the file, the line, the function
and the message, and terminates the process with no recovery path. -/
theorem tc_c3_throw_rethrow_abort (file func : String) (line : Int) :
    TC_THROW_noexc file line func
      = default_abort_noexcept (some file) line (some func)
          (some "TC_THROW called with exceptions disabled") ∧
    TC_RETHROW_noexc file line func
      = default_abort_noexcept (some file) line (some func)
          (some "TC_RETHROW called with exceptions disabled") ∧
    contains_str (TC_THROW_noexc file line func).stderr_out file ∧
    contains_str (TC_THROW_noexc file line func).stderr_out (toString line) ∧
    contains_str (TC_THROW_noexc file line func).stderr_out func ∧
    contains_str (TC_THROW_noexc file line func).stderr_out
      "TC_THROW called with exceptions disabled" ∧
    (TC_THROW_noexc file line func).terminated = true ∧
    (TC_RETHROW_noexc file line func).terminated = true := by
  refine ⟨rfl, rfl, ?_, ?_, ?_, ?_, rfl, rfl⟩
  · exact ⟨"[tc] fatal: exception thrown but exceptions are disabled\n  at ",
      ":" ++ toString line ++ " in " ++ func ++ "\n  msg: "
        ++ "TC_THROW called with exceptions disabled" ++ "\n",
      by simp [TC_THROW_noexc, TC_ABORT, default_abort_noexcept, or_unknown,
        or_none_msg, str_append_assoc]⟩
  · exact ⟨"[tc] fatal: exception thrown but exceptions are disabled\n  at "
        ++ file ++ ":",
      " in " ++ func ++ "\n  msg: "
        ++ "TC_THROW called with exceptions disabled" ++ "\n",
      by simp [TC_THROW_noexc, TC_ABORT, default_abort_noexcept, or_unknown,
        or_none_msg, str_append_assoc]⟩
  · exact ⟨"[tc] fatal: exception thrown but exceptions are disabled\n  at "
        ++ file ++ ":" ++ toString line ++ " in ",
      "\n  msg: " ++ "TC_THROW called with exceptions disabled" ++ "\n",
      by simp [TC_THROW_noexc, TC_ABORT, default_abort_noexcept, or_unknown,
        or_none_msg, str_append_assoc]⟩
  · exact ⟨"[tc] fatal: exception thrown but exceptions are disabled\n  at "
        ++ file ++ ":" ++ toString line ++ " in " ++ func ++ "\n  msg: ",
      "\n",
      by simp [TC_THROW_noexc, TC_ABORT, default_abort_noexcept, or_unknown,
        or_none_msg, str_append_assoc]⟩

end TC
